import Mathlib

/-!
Verification of the deterministic layout / animation synthesis engine of
`generate_matrix_svg.py` (the matrix-rain SVG generator).

Numbers are modelled as exact rationals (`ℚ`); the Python float arithmetic of
the source is modelled exactly on `ℚ`.  Because the `ℚ` field operations in
this toolchain are `@[irreducible]` (hence invisible to `decide`), every
definition below uses the kernel-computable wrappers `qadd`, `qsub`, `qmul`,
`qdiv`, `qneg`; each wrapper is proved equal to the corresponding field
operation, so algebraic reasoning transfers.

`random.Random(0xC0FFEE)` is modelled abstractly: a draw family
`D : ℕ → ℕ → ℕ` gives the `k`-th raw draw of the generator seeded with a
given seed, and `randint` maps a draw into `[lo, hi]`.  The source constructs
the generator freshly (fixed seed `0xC0FFEE`) inside `build_columns` and
consumes one draw per generated column, in column order.
-/

namespace MatrixSvg

/-- Kernel-computable addition on `ℚ` (same value as `a + b`). -/
def qadd (a b : ℚ) : ℚ := mkRat (a.num * b.den + b.num * a.den) (a.den * b.den)

/-- Kernel-computable subtraction on `ℚ` (same value as `a - b`). -/
def qsub (a b : ℚ) : ℚ := mkRat (a.num * b.den - b.num * a.den) (a.den * b.den)

/-- Kernel-computable multiplication on `ℚ` (same value as `a * b`). -/
def qmul (a b : ℚ) : ℚ := mkRat (a.num * b.num) (a.den * b.den)

/-- Kernel-computable division on `ℚ` (same value as `a / b`). -/
def qdiv (a b : ℚ) : ℚ := Rat.divInt (a.num * b.den) (a.den * b.num)

/-- Kernel-computable negation on `ℚ` (same value as `-a`). -/
def qneg (a : ℚ) : ℚ := mkRat (-a.num) a.den

/-! ## Module-level constants (source lines 8-30) -/

/-- Source: `VERTICAL_SPEED_FACTOR = 1.45` -/
def VERTICAL_SPEED_FACTOR : ℚ := mkRat 145 100

/-- Source: `COLUMN_WAVE_GROUP = 6` -/
def COLUMN_WAVE_GROUP : ℕ := 6

/-- Source: `COLUMN_PHASE_STEP = 0.45` -/
def COLUMN_PHASE_STEP : ℚ := mkRat 45 100

/-- Source: `COLUMN_SECONDARY_FACTOR = 0.18` -/
def COLUMN_SECONDARY_FACTOR : ℚ := mkRat 18 100

/-- Source: `COLUMN_RANDOM_JITTER = 0.16` -/
def COLUMN_RANDOM_JITTER : ℚ := mkRat 16 100

/-- Source: `MICRO_PHASE_SCALE = 0.6` -/
def MICRO_PHASE_SCALE : ℚ := mkRat 6 10

/-- Source: `BASE_CANVAS_WIDTH = 500.0` -/
def BASE_CANVAS_WIDTH : ℚ := 500

/-- Source: `EDGE_MARGIN = 0.0` -/
def EDGE_MARGIN : ℚ := 0

/-- Source: `MIN_SPAN_WIDTH = BASE_CANVAS_WIDTH - 2 * EDGE_MARGIN` -/
def MIN_SPAN_WIDTH : ℚ := qsub BASE_CANVAS_WIDTH (qmul 2 EDGE_MARGIN)

/-- Source: `COLUMN_BASE_SPACING = 42.0` -/
def COLUMN_BASE_SPACING : ℚ := 42

/-- Source: `NICE_FEATURE_STEPS` — the feature names, in declared order
(source lines 21-28; descriptions omitted, they are documentation only). -/
def NICE_FEATURE_STEPS : List String :=
  ["disable_font_size_animation",
   "disable_micro_jitter",
   "disable_per_glyph_opacity",
   "disable_fill_opacity_pulse",
   "disable_trail_filter",
   "disable_lightning"]

/-- Source: `MAX_NICE_LEVEL = len(NICE_FEATURE_STEPS)` -/
def MAX_NICE_LEVEL : ℤ := NICE_FEATURE_STEPS.length

/-- The quality-dial flag record: one boolean per feature step, in the
declared order of `NICE_FEATURE_STEPS`. -/
structure NiceFlags where
  disable_font_size_animation : Bool
  disable_micro_jitter : Bool
  disable_per_glyph_opacity : Bool
  disable_fill_opacity_pulse : Bool
  disable_trail_filter : Bool
  disable_lightning : Bool
deriving DecidableEq

/-- Source: `resolve_nice_flags` (source lines 333-343): clamp the requested level
into `[0, MAX_NICE_LEVEL]` and disable feature `i` (1-indexed, declared
order) iff `level ≥ i`. -/
def resolve_nice_flags (requested_level : ℤ) : ℤ × NiceFlags :=
  let level := max 0 (min requested_level MAX_NICE_LEVEL)
  (level,
   { disable_font_size_animation := decide (level ≥ 1)
     disable_micro_jitter := decide (level ≥ 2)
     disable_per_glyph_opacity := decide (level ≥ 3)
     disable_fill_opacity_pulse := decide (level ≥ 4)
     disable_trail_filter := decide (level ≥ 5)
     disable_lightning := decide (level ≥ 6) })

/-- The flags as a list of booleans in declared (1-indexed) feature order;
entry `i` of this list is feature `i+1`'s disabled-bit. -/
def flagVec (f : NiceFlags) : List Bool :=
  [f.disable_font_size_animation,
   f.disable_micro_jitter,
   f.disable_per_glyph_opacity,
   f.disable_fill_opacity_pulse,
   f.disable_trail_filter,
   f.disable_lightning]

/-! ## Glyphs and the glyph-sequence generator (source lines 567-628) -/

/-- A glyph entry: the character (as text) and its font size. -/
abbrev Glyph := String × ℕ

/-- Fallback glyph used for the (never reached) out-of-range list accesses. -/
def defaultGlyph : Glyph := ("", 0)

/-- Source: `extra_glyph_cycle` (source lines 567-585). -/
def extra_glyph_cycle : List Glyph :=
  [("ß", 19), ("ø", 20), ("Σ", 22), ("ñ", 18), ("#", 19), ("ξ", 18),
   ("Þ", 21), ("¡", 19), ("ψ", 21), ("Ł", 20), ("¿", 19), ("K", 21),
   ("κ", 20), ("Ϟ", 22), ("2", 21), ("0", 21), ("Ω", 22)]

/-- Source: `K2_GLYPH = ("K2", 22)` -/
def K2_GLYPH : Glyph := ("K2", 22)

/-- Source: `KTWO_GLYPH = ("ktwo", 20)` -/
def KTWO_GLYPH : Glyph := ("ktwo", 20)

/-- Source: `ASSISTANT_GLYPH = ("∑AI", 20)` -/
def ASSISTANT_GLYPH : Glyph := ("∑AI", 20)

/-- The extension cycle after the three conditional signature insertions
(source lines 610-617): start from `extra_glyph_cycle`; insert
`ASSISTANT_GLYPH` at position 0 when `seed % 11 == 0`; then insert
`K2_GLYPH` at position 0 when `seed % 5 == 0`, else `KTWO_GLYPH` when
`seed % 7 == 0`. -/
def extended_cycle_for (column_seed : ℤ) : List Glyph :=
  let cycle0 := extra_glyph_cycle
  let cycle1 := if column_seed % 11 = 0 then ASSISTANT_GLYPH :: cycle0 else cycle0
  if column_seed % 5 = 0 then K2_GLYPH :: cycle1
  else if column_seed % 7 = 0 then KTWO_GLYPH :: cycle1
  else cycle1

/-- The extension cycle rotated by `(seed * 3) % cycle_len`
(source lines 619-621). -/
def rotated_cycle_for (column_seed : ℤ) : List Glyph :=
  let ec := extended_cycle_for column_seed
  let cycle_len := ec.length
  let rotation := ((column_seed * 3) % (cycle_len : ℤ)).toNat
  (List.range cycle_len).map (fun i => ec.getD ((rotation + i) % cycle_len) defaultGlyph)

/-- Source: `generate_glyph_sequence` (source lines 600-628).  The source's `while`
loop appends `rotated_cycle[cycle_idx % cycle_len]` for
`cycle_idx = 0, 1, ...` until the list reaches `target_count` entries; it is
rendered as a map over the count of missing entries. -/
def generate_glyph_sequence (column_seed : ℤ) (base_glyphs : List Glyph)
    (target_count : ℤ) : List Glyph :=
  if target_count ≤ 0 then []
  else
    let glyphs := base_glyphs.take target_count.toNat
    if (glyphs.length : ℤ) = target_count then glyphs
    else
      let rotated_cycle := rotated_cycle_for column_seed
      let cycle_len := rotated_cycle.length
      glyphs ++ (List.range (target_count.toNat - glyphs.length)).map
        (fun cycle_idx => rotated_cycle.getD (cycle_idx % cycle_len) defaultGlyph)

/-! ## The pattern pool (source lines 345-442)

`fill_values` / `transform_values` / `opacity_values` are stored in the
source as SMIL keyframe strings and parsed back to numbers where used; here
they are stored parsed. -/

/-- One reusable animation-timing pattern. -/
structure Pattern where
  fill_values : List ℚ
  fill_dur : ℚ
  fill_begin : ℚ
  transform_values : List (ℚ × ℚ)
  transform_dur : ℚ
  transform_begin : ℚ
  size_dur : ℚ
  size_begin : ℚ
  size_high : ℚ
  size_low : ℚ
deriving DecidableEq

/-- Fallback pattern for the (never reached) out-of-range pool accesses. -/
def default_pattern : Pattern :=
  { fill_values := [], fill_dur := 0, fill_begin := 0, transform_values := [],
    transform_dur := 0, transform_begin := 0, size_dur := 0, size_begin := 0,
    size_high := 0, size_low := 0 }

/-- Source: `patterns` — the fixed pool of 8 timing patterns. -/
def patterns : List Pattern :=
  [{ fill_values := [mkRat 3 10, mkRat 95 100, mkRat 3 10],
     fill_dur := mkRat 26 10, fill_begin := mkRat (-9) 10,
     transform_values := [(0, -8), (0, 4), (0, -5), (0, -8)],
     transform_dur := mkRat 34 10, transform_begin := mkRat (-5) 10,
     size_dur := 4, size_begin := mkRat (-11) 10,
     size_high := 1, size_low := -1 },
   { fill_values := [mkRat 25 100, mkRat 88 100, mkRat 28 100, mkRat 25 100],
     fill_dur := mkRat 22 10, fill_begin := mkRat (-16) 10,
     transform_values := [(0, -6), (0, 2), (0, -4), (0, -6)],
     transform_dur := mkRat 29 10, transform_begin := mkRat (-7) 10,
     size_dur := mkRat 33 10, size_begin := mkRat (-8) 10,
     size_high := mkRat 12 10, size_low := mkRat (-8) 10 },
   { fill_values := [mkRat 2 10, mkRat 92 100, mkRat 2 10],
     fill_dur := mkRat 31 10, fill_begin := mkRat (-4) 10,
     transform_values := [(0, -10), (0, 5), (0, -3), (0, -10)],
     transform_dur := mkRat 36 10, transform_begin := mkRat (-12) 10,
     size_dur := mkRat 37 10, size_begin := mkRat (-14) 10,
     size_high := mkRat 8 10, size_low := mkRat (-12) 10 },
   { fill_values := [mkRat 34 100, mkRat 9 10, mkRat 34 100],
     fill_dur := mkRat 24 10, fill_begin := mkRat (-12) 10,
     transform_values := [(0, -7), (0, 3), (0, -6), (0, -7)],
     transform_dur := 3, transform_begin := mkRat (-3) 10,
     size_dur := mkRat 35 10, size_begin := -1,
     size_high := 1, size_low := mkRat (-5) 10 },
   { fill_values := [mkRat 18 100, mkRat 82 100, mkRat 24 100, mkRat 18 100],
     fill_dur := mkRat 48 10, fill_begin := mkRat (-21) 10,
     transform_values := [(0, -5), (0, 6), (0, -7), (0, -5)],
     transform_dur := mkRat 63 10, transform_begin := mkRat (-18) 10,
     size_dur := mkRat 49 10, size_begin := mkRat (-22) 10,
     size_high := mkRat 16 10, size_low := mkRat (-13) 10 },
   { fill_values := [mkRat 4 10, 1, mkRat 5 10, mkRat 4 10],
     fill_dur := mkRat 17 10, fill_begin := mkRat (-65) 100,
     transform_values := [(0, -14), (0, 3), (0, -9), (0, -14)],
     transform_dur := mkRat 21 10, transform_begin := mkRat (-95) 100,
     size_dur := mkRat 24 10, size_begin := mkRat (-7) 10,
     size_high := mkRat 6 10, size_low := mkRat (-18) 10 },
   { fill_values := [mkRat 22 100, mkRat 9 10, mkRat 3 10, mkRat 22 100],
     fill_dur := mkRat 56 10, fill_begin := mkRat (-28) 10,
     transform_values := [(0, -6), (0, 5), (0, -8), (0, -6)],
     transform_dur := mkRat 68 10, transform_begin := mkRat (-24) 10,
     size_dur := mkRat 54 10, size_begin := mkRat (-26) 10,
     size_high := mkRat 18 10, size_low := mkRat (-15) 10 },
   { fill_values := [mkRat 32 100, mkRat 96 100, mkRat 4 10, mkRat 32 100],
     fill_dur := mkRat 14 10, fill_begin := mkRat (-35) 100,
     transform_values := [(0, -18), (0, 8), (0, -11), (0, -18)],
     transform_dur := mkRat 19 10, transform_begin := mkRat (-55) 100,
     size_dur := mkRat 21 10, size_begin := mkRat (-6) 10,
     size_high := mkRat 9 10, size_low := mkRat (-21) 10 }]

/-! ## Column templates (source lines 444-565)

`translate_values` is stored in the source as the keyframe string
`"0,y0;0,y1"`; only the two y components are consumed (as
`start_offset_y` / `end_offset_y`), so they are stored here as
`translate_y0` / `translate_y1`.  `opacity_values` `"v0;v1;v2"` is stored as
the three parsed numbers. -/

/-- One column template / instance. -/
structure Column where
  x : ℚ
  translate_y0 : ℚ
  translate_y1 : ℚ
  translate_dur : ℚ
  translate_begin : ℚ
  opacity_v0 : ℚ
  opacity_v1 : ℚ
  opacity_v2 : ℚ
  opacity_dur : ℚ
  opacity_begin : ℚ
  glyphs : List Glyph
deriving DecidableEq

/-- Fallback column for the (never reached) out-of-range library accesses. -/
def default_column : Column :=
  { x := 0, translate_y0 := 0, translate_y1 := 0, translate_dur := 0,
    translate_begin := 0, opacity_v0 := 0, opacity_v1 := 0, opacity_v2 := 0,
    opacity_dur := 0, opacity_begin := 0, glyphs := [] }

/-- Source: `base_columns` — the fixed library of 12 column templates. -/
def base_columns : List Column :=
  [{ x := 20, translate_y0 := -260, translate_y1 := 540,
     translate_dur := mkRat 42 10, translate_begin := mkRat (-14) 10,
     opacity_v0 := mkRat 2 10, opacity_v1 := mkRat 95 100, opacity_v2 := mkRat 2 10,
     opacity_dur := mkRat 42 10, opacity_begin := mkRat (-14) 10,
     glyphs := [("A", 18), ("Σ", 20), ("7", 21), ("Ω", 19), ("Ñ", 18), ("@", 21),
                ("Z", 23), ("É", 19), ("?", 18), ("δ", 17), ("∞", 20)] },
   { x := 60, translate_y0 := -300, translate_y1 := 520,
     translate_dur := mkRat 51 10, translate_begin := mkRat (-8) 10,
     opacity_v0 := mkRat 18 100, opacity_v1 := 1, opacity_v2 := mkRat 18 100,
     opacity_dur := mkRat 51 10, opacity_begin := mkRat (-8) 10,
     glyphs := [("ß", 18), ("M", 21), ("鶴", 22), ("λ", 19), ("Ü", 18), ("鶴", 20),
                ("Q", 23), ("ß", 19), ("3", 18), ("η", 17), ("≈", 20)] },
   { x := 100, translate_y0 := -240, translate_y1 := 520,
     translate_dur := mkRat 47 10, translate_begin := mkRat (-23) 10,
     opacity_v0 := mkRat 25 100, opacity_v1 := mkRat 9 10, opacity_v2 := mkRat 25 100,
     opacity_dur := mkRat 47 10, opacity_begin := mkRat (-23) 10,
     glyphs := [("C", 18), ("S", 20), ("%", 22), ("Ψ", 19), ("Í", 17), ("5", 21),
                ("T", 23), ("χ", 19), ("8", 18), ("κ", 17), ("∈", 20)] },
   { x := 140, translate_y0 := -320, translate_y1 := 520,
     translate_dur := mkRat 54 10, translate_begin := mkRat (-4) 10,
     opacity_v0 := mkRat 18 100, opacity_v1 := mkRat 92 100, opacity_v2 := mkRat 18 100,
     opacity_dur := mkRat 54 10, opacity_begin := mkRat (-4) 10,
     glyphs := [("D", 18), ("L", 21), ("$", 22), ("β", 19), ("Ó", 17), ("1", 21),
                ("P", 23), ("Ξ", 19), ("6", 18), ("ϑ", 17), ("∮", 20)] },
   { x := 180, translate_y0 := -260, translate_y1 := 560,
     translate_dur := mkRat 41 10, translate_begin := mkRat (-19) 10,
     opacity_v0 := mkRat 26 100, opacity_v1 := mkRat 9 10, opacity_v2 := mkRat 26 100,
     opacity_dur := mkRat 41 10, opacity_begin := mkRat (-19) 10,
     glyphs := [("E", 18), ("V", 21), ("0", 22), ("Γ", 19), ("Ú", 17), ("2", 21),
                ("F", 23), ("Ζ", 19), ("4", 18), ("θ", 17), ("∟", 20)] },
   { x := 220, translate_y0 := -300, translate_y1 := 560,
     translate_dur := mkRat 58 10, translate_begin := mkRat (-32) 10,
     opacity_v0 := mkRat 17 100, opacity_v1 := mkRat 95 100, opacity_v2 := mkRat 17 100,
     opacity_dur := mkRat 58 10, opacity_begin := mkRat (-32) 10,
     glyphs := [("F", 18), ("X", 21), ("!", 22), ("Φ", 19), ("Å", 17), ("%", 21),
                ("N", 23), ("Π", 19), ("œ", 18), ("μ", 17), ("∴", 20)] },
   { x := 260, translate_y0 := -260, translate_y1 := 520,
     translate_dur := mkRat 44 10, translate_begin := mkRat (-2) 10,
     opacity_v0 := mkRat 24 100, opacity_v1 := mkRat 93 100, opacity_v2 := mkRat 24 100,
     opacity_dur := mkRat 44 10, opacity_begin := mkRat (-2) 10,
     glyphs := [("G", 18), ("Y", 21), ("@", 22), ("Υ", 19), ("Í", 17), ("ρ", 21),
                ("Æ", 23), ("W", 19), ("ħ", 18), ("ξ", 17), ("∠", 20)] },
   { x := 300, translate_y0 := -280, translate_y1 := 560,
     translate_dur := 5, translate_begin := mkRat (-11) 10,
     opacity_v0 := mkRat 2 10, opacity_v1 := mkRat 97 100, opacity_v2 := mkRat 2 10,
     opacity_dur := 5, opacity_begin := mkRat (-11) 10,
     glyphs := [("ñ", 18), ("T", 21), ("8", 22), ("ϖ", 19), ("Ê", 17), ("σ", 21),
                ("Ğ", 23), ("V", 19), ("ň", 18), ("ς", 17), ("∵", 20)] },
   { x := 340, translate_y0 := -240, translate_y1 := 520,
     translate_dur := mkRat 43 10, translate_begin := mkRat (-27) 10,
     opacity_v0 := mkRat 22 100, opacity_v1 := mkRat 92 100, opacity_v2 := mkRat 22 100,
     opacity_dur := mkRat 43 10, opacity_begin := mkRat (-27) 10,
     glyphs := [("I", 18), ("P", 21), ("6", 22), ("ϱ", 19), ("Ë", 17), ("ϙ", 21),
                ("Ð", 23), ("U", 19), ("ŕ", 18), ("Ϟ", 17), ("∗", 20)] },
   { x := 380, translate_y0 := -320, translate_y1 := 560,
     translate_dur := mkRat 56 10, translate_begin := mkRat (-15) 10,
     opacity_v0 := mkRat 19 100, opacity_v1 := mkRat 96 100, opacity_v2 := mkRat 19 100,
     opacity_dur := mkRat 56 10, opacity_begin := mkRat (-15) 10,
     glyphs := [("¿", 18), ("N", 21), ("5", 22), ("ϗ", 19), ("Ę", 17), ("ϛ", 21),
                ("Ç", 23), ("R", 19), ("ś", 18), ("ϟ", 17), ("∯", 20)] },
   { x := 420, translate_y0 := -260, translate_y1 := 520,
     translate_dur := mkRat 45 10, translate_begin := mkRat (-9) 10,
     opacity_v0 := mkRat 24 100, opacity_v1 := mkRat 9 10, opacity_v2 := mkRat 24 100,
     opacity_dur := mkRat 45 10, opacity_begin := mkRat (-9) 10,
     glyphs := [("K", 18), ("C", 21), ("4", 22), ("Ϥ", 19), ("Ě", 17), ("ϝ", 21),
                ("Ō", 23), ("S", 19), ("ž", 18), ("ϡ", 17), ("∼", 20)] },
   { x := 460, translate_y0 := -300, translate_y1 := 560,
     translate_dur := mkRat 52 10, translate_begin := mkRat (-25) 10,
     opacity_v0 := mkRat 21 100, opacity_v1 := mkRat 94 100, opacity_v2 := mkRat 21 100,
     opacity_dur := mkRat 52 10, opacity_begin := mkRat (-25) 10,
     glyphs := [("ψ", 18), ("E", 21), ("3", 22), ("Θ", 19), ("Á", 17), ("Δ", 21),
                ("Š", 23), ("T", 19), ("ñ", 18), ("β", 17), ("⊕", 20)] }]

/-! ## Irregular-column tables (source lines 631-634) -/

/-- Source: `irregular_offsets` (integers in the source). -/
def irregular_offsets : List ℤ :=
  [12, 53, 97, 141, 176, 219, 263, 298, 336, 371, 413, 452]

/-- Source: `phase_shifts` -/
def phase_shifts : List ℚ :=
  [mkRat 85 100, mkRat (-6) 10, mkRat 14 10, mkRat (-115) 100,
   mkRat 32 100, mkRat 192 100, mkRat (-78) 100, mkRat 128 100,
   mkRat (-42) 100, mkRat 96 100, mkRat (-148) 100, mkRat 161 100]

/-- Source: `translate_scales` -/
def translate_scales : List ℚ :=
  [mkRat 118 100, mkRat 82 100, mkRat 135 100, mkRat 87 100,
   mkRat 126 100, mkRat 79 100, mkRat 132 100, mkRat 9 10,
   mkRat 124 100, mkRat 84 100, mkRat 129 100, mkRat 93 100]

/-- Source: `opacity_scales` -/
def opacity_scales : List ℚ :=
  [mkRat 112 100, mkRat 86 100, mkRat 13 10, mkRat 9 10,
   mkRat 118 100, mkRat 82 100, mkRat 124 100, mkRat 88 100,
   mkRat 116 100, mkRat 84 100, mkRat 122 100, mkRat 9 10]

/-- Source: `irregular_len = len(irregular_offsets)` -/
def irregular_len : ℕ := irregular_offsets.length

/-- Source: `offset_min = min(irregular_offsets) if irregular_offsets else 0.0` -/
def offset_min : ℤ :=
  match irregular_offsets with
  | [] => 0
  | x :: rest => rest.foldl min x

/-- Source: `offset_max = max(irregular_offsets) if irregular_offsets else 1.0` -/
def offset_max : ℤ :=
  match irregular_offsets with
  | [] => 1
  | x :: rest => rest.foldl max x

/-! ## The irregular index-selection rule (source lines 835-872) -/

/-- Python 3's `round` on an exact rational: round-half-to-even.  Models
`int(round(...))` of the source (the float computation is modelled as exact
rational arithmetic). -/
def pyRound (q : ℚ) : ℤ :=
  let f := q.num.fdiv q.den
  let twice_rest := 2 * (q.num - f * q.den)
  if twice_rest < (q.den : ℤ) then f
  else if (q.den : ℤ) < twice_rest then f + 1
  else if f % 2 = 0 then f else f + 1

/-- Source: `while idx in used and idx < irregular_len - 1: idx += 1`.  The index
strictly increases and the loop stops at `irregular_len - 1`, so
`irregular_len` steps of fuel always suffice. -/
def bump_up (used : List ℕ) : ℕ → ℕ → ℕ
  | 0, idx => idx
  | fuel + 1, idx =>
    if idx ∈ used ∧ idx < irregular_len - 1 then bump_up used fuel (idx + 1) else idx

/-- Source: `while candidate >= 0 and candidate in used: candidate -= 1`.  The
candidate strictly decreases from at most `irregular_len - 2` and the loop
stops below `0`, so `irregular_len` steps of fuel always suffice. -/
def seek_down (used : List ℕ) : ℕ → ℤ → ℤ
  | 0, candidate => candidate
  | fuel + 1, candidate =>
    if 0 ≤ candidate ∧ candidate.toNat ∈ used then seek_down used fuel (candidate - 1)
    else candidate

/-- Source: `idx = (idx + 1) % irregular_len; while idx in used: idx = ...`.  This
branch runs only when fewer than `irregular_len` indices are used, so a free
slot is found within `irregular_len` steps of fuel. -/
def wrap_scan (used : List ℕ) : ℕ → ℕ → ℕ
  | 0, idx => idx
  | fuel + 1, idx =>
    if idx ∈ used then wrap_scan used fuel ((idx + 1) % irregular_len) else idx

/-- The collision-avoidance fallback chain of `select_irregular_indices`
(source lines 847-859). -/
def resolve_collision (used : List ℕ) (idx0 : ℕ) : ℕ :=
  let idx := bump_up used irregular_len idx0
  if idx ∈ used then
    let candidate := seek_down used irregular_len ((idx : ℤ) - 1)
    if 0 ≤ candidate then candidate.toNat
    else wrap_scan used irregular_len ((idx + 1) % irregular_len)
  else idx

/-- Insertion step for `sorted(...)` on naturals. -/
def insert_sorted (x : ℕ) : List ℕ → List ℕ
  | [] => [x]
  | y :: ys => if x ≤ y then x :: y :: ys else y :: insert_sorted x ys

/-- Source: `sorted(indices)` (ascending; equal naturals are indistinguishable, so
stability is moot). -/
def sort_nat (l : List ℕ) : List ℕ := l.foldr insert_sorted []

/-- Source: `select_irregular_indices` (source lines 835-872).  In the
`count <= irregular_len` branch the source threads `indices` (a list) and
`used` (a set with the same members); the fold below threads the single
list `acc` for both roles.  In the `count > irregular_len` branch the
source's early `return` upon reaching `count` entries is rendered as
`take count`. -/
def select_irregular_indices (count : ℤ) : List ℕ :=
  if count ≤ 0 ∨ irregular_len = 0 then []
  else if count = 1 then [irregular_len / 2]
  else if count ≤ (irregular_len : ℤ) then
    let step : ℚ := qdiv (((irregular_len : ℤ) - 1 : ℤ) : ℚ) ((count - 1 : ℤ) : ℚ)
    let indices := (List.range count.toNat).foldl
      (fun (acc : List ℕ) i =>
        let idx0 := pyRound (qmul ((i : ℕ) : ℚ) step)
        let idx1 := (max 0 (min ((irregular_len : ℤ) - 1) idx0)).toNat
        acc ++ [resolve_collision acc idx1])
      []
    sort_nat indices
  else
    let cycles := (count.toNat + irregular_len - 1) / irregular_len
    ((List.range cycles).flatMap (fun cycle =>
      (List.range irregular_len).map
        (fun pos => (pos + (cycle * 3) % irregular_len) % irregular_len))).take count.toNat

/-! ## The column layout engine (source lines 808-907) -/

/-- Fixed seed of the per-run pseudorandom generator: `0xC0FFEE`. -/
def RNG_SEED : ℕ := 0xC0FFEE

/-- Abstract model of `random.Random`: `D seed k` is the `k`-th raw draw of
a generator constructed with the given seed. -/
abbrev DrawFamily := ℕ → ℕ → ℕ

/-- Abstract model of `rng.randint(lo, hi)` for the fixed-seed generator:
the `k`-th consumed draw, mapped into `[lo, hi]` (for `lo ≤ hi`). -/
def randint_model (D : DrawFamily) (k : ℕ) (lo hi : ℤ) : ℤ :=
  lo + (D RNG_SEED k : ℤ) % (hi - lo + 1)

/-- Source: `pick_glyph_target` (source lines 817-820) with the explicit draw
counter `k`: consumes no draw when `min_gps == max_gps`, one otherwise. -/
def pick_glyph_target (D : DrawFamily) (min_gps max_gps : ℤ) (k : ℕ) : ℤ × ℕ :=
  if min_gps = max_gps then (min_gps, k)
  else (randint_model D k min_gps max_gps, k + 1)

/-- Source: `span_width = max(MIN_SPAN_WIDTH, (total_columns - 1) * COLUMN_BASE_SPACING)`
with `total_columns = max(regular_count + irregular_count, 1)`
(source lines 813-815). -/
def span_width (regular_count irregular_count : ℤ) : ℚ :=
  let total_columns := max (regular_count + irregular_count) 1
  max MIN_SPAN_WIDTH (qmul ((total_columns - 1 : ℤ) : ℚ) COLUMN_BASE_SPACING)

/-- The regular-column loop (source lines 822-830), threading the draw
counter.  Column `idx` clones `base_columns[idx % len]`, sets its `x`
(midpoint for `regular_count == 1`, else evenly spaced), and regenerates
its glyphs with seed `idx`. -/
def build_regular (D : DrawFamily) (min_gps max_gps regular_count : ℤ)
    (span : ℚ) : List Column × ℕ :=
  (List.range (max 0 regular_count).toNat).foldl
    (fun acc idx =>
      let template := base_columns.getD (idx % base_columns.length) default_column
      let x := if regular_count = 1 then qdiv span 2
               else qmul (qdiv span ((max (regular_count - 1) 1 : ℤ) : ℚ)) (idx : ℚ)
      let pk := pick_glyph_target D min_gps max_gps acc.2
      let col := { template with
                    x := x,
                    glyphs := generate_glyph_sequence (idx : ℤ) template.glyphs pk.1 }
      (acc.1 ++ [col], pk.2))
    ([], 0)

/-- The irregular-column loop (source lines 876-890), threading the draw
counter from `k0`.  Column number `idx` (enumeration order) with selected
offset index `offset_idx` clones `base_columns[idx % len]`, places it at the
normalized offset position, perturbs its timing by the per-offset tables,
and regenerates its glyphs with seed `idx + regular_count`. -/
def build_irregular (D : DrawFamily) (min_gps max_gps regular_count : ℤ)
    (span : ℚ) (idxs : List ℕ) (k0 : ℕ) : List Column × ℕ :=
  idxs.enum.foldl
    (fun acc p =>
      let idx := p.1
      let offset_idx := p.2
      let template := base_columns.getD (idx % base_columns.length) default_column
      let normalized := if offset_max = offset_min then mkRat 1 2
                        else qdiv ((irregular_offsets.getD offset_idx 0 - offset_min : ℤ) : ℚ)
                               ((offset_max - offset_min : ℤ) : ℚ)
      let shift := phase_shifts.getD offset_idx 0
      let pk := pick_glyph_target D min_gps max_gps acc.2
      let col := { template with
                    x := qmul normalized span,
                    translate_begin := qadd template.translate_begin shift,
                    opacity_begin := qadd template.opacity_begin (qmul shift (mkRat 65 100)),
                    translate_dur := qmul template.translate_dur (translate_scales.getD offset_idx 0),
                    opacity_dur := qmul template.opacity_dur (opacity_scales.getD offset_idx 0),
                    glyphs := generate_glyph_sequence ((idx : ℤ) + regular_count)
                                template.glyphs pk.1 }
      (acc.1 ++ [col], pk.2))
    ([], k0)

/-- The column list of `build_columns` before the renormalization pass
(source lines 809-890): regular columns followed by irregular columns. -/
def build_columns_raw (D : DrawFamily)
    (min_gps max_gps regular_count irregular_count : ℤ) : List Column :=
  let span := span_width regular_count irregular_count
  let reg := build_regular D min_gps max_gps regular_count span
  let idxs := select_irregular_indices (max 0 irregular_count)
  let irr := build_irregular D min_gps max_gps regular_count span idxs reg.2
  reg.1 ++ irr.1

/-- Python's `min` over a nonempty list (0 for the empty list, never used). -/
def listMinQ : List ℚ → ℚ
  | [] => 0
  | x :: rest => rest.foldl min x

/-- Python's `max` over a nonempty list (0 for the empty list, never used). -/
def listMaxQ : List ℚ → ℚ
  | [] => 0
  | x :: rest => rest.foldl max x

/-- The renormalization pass and canvas-width computation of `build_columns`
(source lines 892-907).  The source builds `normalized_positions` from `xs`
and zips it back onto `columns`; since entry `i` of that list is a function
of `columns[i].x` alone, this is rendered as a map updating each column's
`x` in place. -/
def normalize_pass (span_w : ℚ) (columns : List Column) : List Column × ℚ :=
  match columns with
  | [] => ([], BASE_CANVAS_WIDTH)
  | c0 :: rest =>
    let xs := (c0 :: rest).map (fun c => c.x)
    let min_x := listMinQ xs
    let max_x := listMaxQ xs
    let renorm : ℚ → ℚ := fun x =>
      if max_x = min_x then qdiv span_w 2
      else qmul (qsub x min_x) (qdiv span_w (qsub max_x min_x))
    ((c0 :: rest).map (fun c => { c with x := qadd (renorm c.x) EDGE_MARGIN }),
     qadd span_w (qmul 2 EDGE_MARGIN))

/-- Source: `build_columns` (source lines 808-907). -/
def build_columns (D : DrawFamily)
    (min_gps max_gps regular_count irregular_count : ℤ) : List Column × ℚ :=
  normalize_pass (span_width regular_count irregular_count)
    (build_columns_raw D min_gps max_gps regular_count irregular_count)

/-! ## The `build_svg` entry point (source lines 910-933), restricted to the
synthesis core: input clamping, quality resolution, column generation, and
the lightning gate.  Markup assembly and metadata embedding are external
collaborators and are not modelled. -/

/-- The synthesized result of `build_svg` relevant to the core. -/
structure SvgResult where
  nice_level : ℤ
  flags : NiceFlags
  columns : List Column
  canvas_width : ℚ
  lightning_included : Bool
  metadata_included : Bool
deriving DecidableEq

/-- Source: `build_svg` (source lines 910-933): resolve the quality flags, clamp
`gps_min` to at least 1, raise `gps_max` to at least `gps_min`, default the
column counts to `len(base_columns)`, floor them at 0, and build the
columns. -/
def build_svg (D : DrawFamily) (include_lightning : Bool) (nice_level : ℤ)
    (gps_min gps_max : ℤ) (regular_columns irregular_columns : Option ℤ)
    (include_metadata : Bool) : SvgResult :=
  let resolved := resolve_nice_flags nice_level
  let gps_min := max 1 gps_min
  let gps_max := max gps_min gps_max
  let regular_columns := regular_columns.getD (base_columns.length : ℤ)
  let irregular_columns := irregular_columns.getD (base_columns.length : ℤ)
  let regular_columns := max 0 regular_columns
  let irregular_columns := max 0 irregular_columns
  let bc := build_columns D gps_min gps_max regular_columns irregular_columns
  { nice_level := resolved.1
    flags := resolved.2
    columns := bc.1
    canvas_width := bc.2
    lightning_included := include_lightning && !resolved.2.disable_lightning
    metadata_included := include_metadata }

/-! ## Per-glyph animation synthesis (`build_matrix_rain`, source lines
637-805)

The markup tree construction is an external collaborator; what is modelled
is the per-glyph element the loop body emits: its static attributes and the
animation timelines attached to it.  An `Option` field is `none` exactly
when the source emits no corresponding attribute/child element. -/

/-- Source: `0.61803398875` — the golden-ratio-conjugate stagger constant of the
per-column jitter (source line 667). -/
def GOLDEN_STEP : ℚ := mkRat 61803398875 100000000000

/-- Python `x % 1.0` on an exact rational (the result is in `[0, 1)` for
either sign of `x`, matching Python's nonnegative `%`). -/
def qfract (q : ℚ) : ℚ := mkRat (q.num % (q.den : ℤ)) q.den

/-- The per-column phase anchor (source lines 665-668). -/
def column_anchor (col_idx : ℕ) : ℚ :=
  let column_wave_base := qmul ((col_idx % COLUMN_WAVE_GROUP : ℕ) : ℚ) COLUMN_PHASE_STEP
  let column_wave_secondary :=
    qmul (qmul ((col_idx / COLUMN_WAVE_GROUP : ℕ) : ℚ) COLUMN_PHASE_STEP) COLUMN_SECONDARY_FACTOR
  let column_wave_jitter :=
    qmul (qsub (qfract (qmul (col_idx : ℚ) GOLDEN_STEP)) (mkRat 1 2)) COLUMN_RANDOM_JITTER
  qadd (qadd column_wave_base column_wave_secondary) column_wave_jitter

/-- The per-glyph micro phase (source line 674). -/
def micro_phase (col_idx glyph_idx : ℕ) : ℚ :=
  qmul (qadd (qmul (col_idx : ℚ) (mkRat 18 100)) (qmul (glyph_idx : ℚ) (mkRat 7 100)))
    MICRO_PHASE_SCALE

/-- Kernel-computable sum of a list of rationals (same value as `l.sum`). -/
def qsum : List ℚ → ℚ
  | [] => 0
  | x :: rest => qadd x (qsum rest)

/-- The always-present fall timeline: an `animateTransform` of type
`translate` with keyframes `"0,v_start;0,v_end"` (source lines 736-747). -/
structure FallAnim where
  v_start : ℚ
  v_end : ℚ
  dur : ℚ
  begin_time : ℚ
deriving DecidableEq

/-- An `animate` timeline with a parsed numeric keyframe list. -/
structure SeqAnim where
  values : List ℚ
  dur : ℚ
  begin_time : ℚ
deriving DecidableEq

/-- The per-glyph opacity `animate` timeline with its three keyframes
`"0.08;peak;0.06"` (source lines 710-711, 762-773). -/
structure TripleAnim where
  v0 : ℚ
  v1 : ℚ
  v2 : ℚ
  dur : ℚ
  begin_time : ℚ
deriving DecidableEq

/-- The font-size pulse: an additive `animateTransform` of type `scale`
with keyframes `"1;scale_high;scale_low;1"` (source lines 697-699,
775-788). -/
structure ScaleAnim where
  v0 : ℚ
  v1 : ℚ
  v2 : ℚ
  v3 : ℚ
  dur : ℚ
  begin_time : ℚ
deriving DecidableEq

/-- The micro-jitter: an additive `animateTransform` of type `translate`
with the pattern's keyframe path (source lines 790-803). -/
structure PairSeqAnim where
  values : List (ℚ × ℚ)
  dur : ℚ
  begin_time : ℚ
deriving DecidableEq

/-- The text element emitted for one glyph: static attributes (an `Option`
is `none` when the source emits no such attribute) and the four gated
timelines plus the ungated fall timeline. -/
structure GlyphElem where
  char : String
  y : ℚ
  font_size : ℕ
  base_translation : ℚ
  opacity_attr : Option ℚ
  fill_opacity_attr : Option ℚ
  fall : FallAnim
  fill_anim : Option SeqAnim
  opacity_anim : Option TripleAnim
  size_anim : Option ScaleAnim
  jitter_anim : Option PairSeqAnim
deriving DecidableEq

/-- The loop body of `build_matrix_rain` for one glyph (source lines
670-803).  `start_translation = (base_y + start_offset_y) - base_y` is the
column's `translate_y0` (and likewise for the end), so the fall keyframes
are the column's translate keyframe pair. -/
def build_glyph_elem (nice_flags : NiceFlags) (col_idx : ℕ) (col : Column)
    (glyph_idx : ℕ) (g : Glyph) : GlyphElem :=
  let size := g.2
  let base_y := qadd 20 (qmul (glyph_idx : ℚ) 40)
  let pattern_idx := (glyph_idx + col_idx) % patterns.length
  let pattern := patterns.getD pattern_idx default_pattern
  let anchor := column_anchor col_idx
  let mp := micro_phase col_idx glyph_idx
  let start_translation := col.translate_y0
  let end_translation := col.translate_y1
  let fill_begin := qsub (qadd pattern.fill_begin anchor) mp
  let jitter_begin := qsub (qadd pattern.transform_begin anchor) (qmul mp (mkRat 8 10))
  let size_begin := qsub (qadd pattern.size_begin anchor) (qmul mp (mkRat 5 10))
  let opacity_begin := qsub (qadd col.opacity_begin anchor) (qmul mp (mkRat 6 10))
  let fall_scale := qadd (qadd (mkRat 95 100) (qmul (mkRat 8 100) ((glyph_idx % 5 : ℕ) : ℚ)))
    (qmul (mkRat 5 100) ((pattern_idx % 3 : ℕ) : ℚ))
  let fall_dur := qmul (qmul col.translate_dur fall_scale) VERTICAL_SPEED_FACTOR
  let fall_begin := qsub (qadd col.translate_begin anchor) mp
  let opacity_scale := qadd (mkRat 9 10)
    (qmul (mkRat 4 100) (((glyph_idx + 2 * col_idx) % 4 : ℕ) : ℚ))
  let opacity_dur := qmul col.opacity_dur opacity_scale
  let scale_high0 := if size ≠ 0 then qdiv (qadd (size : ℚ) pattern.size_high) (size : ℚ) else 1
  let scale_low0 := if size ≠ 0 then qdiv (qadd (size : ℚ) pattern.size_low) (size : ℚ) else 1
  let scale_high := max scale_high0 (mkRat 2 10)
  let scale_low := max scale_low0 (mkRat 2 10)
  let peak_opacity := min (mkRat 98 100) (max (mkRat 4 10)
    (qmul col.opacity_v1 (qadd 1 (qmul (mkRat 8 100) (qsub ((glyph_idx % 3 : ℕ) : ℚ) 1)))))
  let fill_static := qdiv (qsum pattern.fill_values) (pattern.fill_values.length : ℚ)
  { char := g.1
    y := base_y
    font_size := size
    base_translation := start_translation
    opacity_attr := if nice_flags.disable_per_glyph_opacity then some peak_opacity else none
    fill_opacity_attr := if nice_flags.disable_fill_opacity_pulse then some fill_static else none
    fall := { v_start := start_translation, v_end := end_translation,
              dur := fall_dur, begin_time := fall_begin }
    fill_anim := if nice_flags.disable_fill_opacity_pulse then none
                 else some { values := pattern.fill_values, dur := pattern.fill_dur,
                             begin_time := fill_begin }
    opacity_anim := if nice_flags.disable_per_glyph_opacity then none
                    else some { v0 := mkRat 8 100, v1 := peak_opacity, v2 := mkRat 6 100,
                                dur := opacity_dur, begin_time := opacity_begin }
    size_anim := if nice_flags.disable_font_size_animation then none
                 else some { v0 := 1, v1 := scale_high, v2 := scale_low, v3 := 1,
                             dur := pattern.size_dur, begin_time := size_begin }
    jitter_anim := if nice_flags.disable_micro_jitter then none
                   else some { values := pattern.transform_values, dur := pattern.transform_dur,
                               begin_time := jitter_begin } }

/-- The draw family used by concrete witnesses: every raw draw is 0. -/
def zero_draws : DrawFamily := fun _ _ => 0

/-- The x-positions of the columns before the renormalization pass. -/
def raw_xs (D : DrawFamily) (min_gps max_gps regular_count irregular_count : ℤ) : List ℚ :=
  (build_columns_raw D min_gps max_gps regular_count irregular_count).map (fun c => c.x)

/-- The final x-positions returned by the layout engine. -/
def final_xs (D : DrawFamily) (min_gps max_gps regular_count irregular_count : ℤ) : List ℚ :=
  (build_columns D min_gps max_gps regular_count irregular_count).1.map (fun c => c.x)


/-! ## Shared helper lemmas -/

theorem qadd_eq (a b : ℚ) : qadd a b = a + b := by
  have had : (a.den : ℚ) ≠ 0 := by positivity
  have hbd : (b.den : ℚ) ≠ 0 := by positivity
  rw [qadd, Rat.mkRat_eq_div]
  push_cast
  conv_rhs => rw [← Rat.num_div_den a, ← Rat.num_div_den b]
  field_simp

theorem qsub_eq (a b : ℚ) : qsub a b = a - b := by
  have had : (a.den : ℚ) ≠ 0 := by positivity
  have hbd : (b.den : ℚ) ≠ 0 := by positivity
  rw [qsub, Rat.mkRat_eq_div]
  push_cast
  conv_rhs => rw [← Rat.num_div_den a, ← Rat.num_div_den b]
  field_simp
  ring

theorem qmul_eq (a b : ℚ) : qmul a b = a * b := by
  have had : (a.den : ℚ) ≠ 0 := by positivity
  have hbd : (b.den : ℚ) ≠ 0 := by positivity
  rw [qmul, Rat.mkRat_eq_div]
  push_cast
  conv_rhs => rw [← Rat.num_div_den a, ← Rat.num_div_den b]
  field_simp

theorem qneg_eq (a : ℚ) : qneg a = -a := by
  have had : (a.den : ℚ) ≠ 0 := by positivity
  rw [qneg, Rat.mkRat_eq_div]
  push_cast
  conv_rhs => rw [← Rat.num_div_den a]
  field_simp

theorem qdiv_eq (a b : ℚ) : qdiv a b = a / b := by
  rcases eq_or_ne b 0 with rfl | hb
  · simp [qdiv]
  · have hbn : (b.num : ℚ) ≠ 0 := by
      exact_mod_cast Rat.num_ne_zero.mpr hb
    have had : (a.den : ℚ) ≠ 0 := by positivity
    have hbd : (b.den : ℚ) ≠ 0 := by positivity
    rw [qdiv, Rat.divInt_eq_div]
    push_cast
    conv_rhs => rw [← Rat.num_div_den a, ← Rat.num_div_den b]
    field_simp

theorem qsum_eq (l : List ℚ) : qsum l = l.sum := by
  induction l with
  | nil => rfl
  | cons x rest ih => rw [qsum, qadd_eq, ih, List.sum_cons]


theorem extended_cycle_for_length_pos (seed : ℤ) :
    0 < (extended_cycle_for seed).length := by
  simp only [extended_cycle_for]
  split_ifs <;> decide

theorem rotated_cycle_for_length (seed : ℤ) :
    (rotated_cycle_for seed).length = (extended_cycle_for seed).length := by
  simp [rotated_cycle_for]

theorem rotated_cycle_for_getD (seed : ℤ) (j : ℕ)
    (hj : j < (extended_cycle_for seed).length) :
    (rotated_cycle_for seed).getD j defaultGlyph =
      (extended_cycle_for seed).getD
        ((((seed * 3) % ((extended_cycle_for seed).length : ℤ)).toNat + j) %
          (extended_cycle_for seed).length) defaultGlyph := by
  simp only [rotated_cycle_for]
  rw [List.getD_eq_getElem _ _ (by simpa using hj)]
  simp

theorem rotated_cycle_for_getD_mem (seed : ℤ) (j : ℕ)
    (hj : j < (rotated_cycle_for seed).length) :
    (rotated_cycle_for seed).getD j defaultGlyph ∈ extended_cycle_for seed := by
  rw [rotated_cycle_for_length] at hj
  rw [rotated_cycle_for_getD seed j hj]
  have hlt : (((seed * 3) % ((extended_cycle_for seed).length : ℤ)).toNat + j) %
      (extended_cycle_for seed).length < (extended_cycle_for seed).length :=
    Nat.mod_lt _ (extended_cycle_for_length_pos seed)
  rw [List.getD_eq_getElem _ _ hlt]
  exact List.getElem_mem hlt

/-- Closed form of the extension branch of `generate_glyph_sequence`:
when the base is shorter than the target, the output is the base followed
by cyclic reads of the rotated cycle. -/
theorem generate_glyph_sequence_extension (seed : ℤ) (base : List Glyph)
    (target : ℤ) (h : (base.length : ℤ) < target) :
    generate_glyph_sequence seed base target =
      base ++ (List.range (target.toNat - base.length)).map
        (fun cycle_idx =>
          (rotated_cycle_for seed).getD (cycle_idx % (rotated_cycle_for seed).length)
            defaultGlyph) := by
  have h0 : ¬ target ≤ 0 := by omega
  have hlen : base.length ≤ target.toNat := by omega
  simp only [generate_glyph_sequence]
  rw [if_neg h0, List.take_of_length_le hlen, if_neg (by omega : ¬((base.length : ℤ) = target))]

/-! ## C1 — glyph-sequence generator contract -/

/-- Claim **C1**: for every seed, base list and target count: a nonpositive target
yields the empty sequence; a target within the base yields exactly the first
`target` entries of the base; a larger target yields a sequence of length
exactly `target` whose first `len base` entries are the base unchanged and
whose remaining entries are all drawn from the (possibly
signature-prefixed) extension cycle. -/
theorem claim_C1_glyph_sequence (seed : ℤ) (base : List Glyph) (target : ℤ) :
    (target ≤ 0 → generate_glyph_sequence seed base target = []) ∧
    (0 < target → target ≤ (base.length : ℤ) →
      generate_glyph_sequence seed base target = base.take target.toNat) ∧
    ((base.length : ℤ) < target →
      (generate_glyph_sequence seed base target).length = target.toNat ∧
      (generate_glyph_sequence seed base target).take base.length = base ∧
      ∀ g ∈ (generate_glyph_sequence seed base target).drop base.length,
        g ∈ extended_cycle_for seed) := by
  refine ⟨fun h => ?_, fun h1 h2 => ?_, fun h => ?_⟩
  · simp only [generate_glyph_sequence]
    rw [if_pos h]
  · have hton : (base.take target.toNat).length = target.toNat := by
      rw [List.length_take]
      omega
    simp only [generate_glyph_sequence]
    rw [if_neg (by omega : ¬ target ≤ 0), if_pos (by rw [hton]; omega)]
  · rw [generate_glyph_sequence_extension seed base target h]
    refine ⟨?_, List.take_left base _, ?_⟩
    · simp only [List.length_append, List.length_map, List.length_range]
      omega
    · rw [List.drop_left]
      intro g hg
      obtain ⟨k, hk, rfl⟩ := List.mem_map.mp hg
      exact rotated_cycle_for_getD_mem seed _
        (Nat.mod_lt _ (by rw [rotated_cycle_for_length]
                          exact extended_cycle_for_length_pos seed))

/-- Witness for C1: the truncation case at a concrete input. -/
theorem claim_C1_witness :
    generate_glyph_sequence 5 [("A", 18), ("B", 19)] 2 =
      [("A", 18), ("B", 19)].take (2 : ℤ).toNat :=
  (claim_C1_glyph_sequence 5 [("A", 18), ("B", 19)] 2).2.1 (by decide) (by decide)

/-! ## C5 — signature insertions and rotation of the extension cycle -/

/-- Claim **C5**: in the extension path, the extension cycle is the fixed extra
cycle prefixed (in this order) by `K2_GLYPH` if `seed % 5 == 0` — else
`KTWO_GLYPH` if `seed % 7 == 0` — and then by `ASSISTANT_GLYPH` if
`seed % 11 == 0` (the independent `% 11` insertion happens first, so the
`% 5`/`% 7` glyph ends up in front); the cycle is then rotated by
`(seed * 3) mod cycle_len` and, for `target > len base`, appended
cyclically after the base. -/
theorem claim_C5_extension_structure (seed : ℤ) :
    (extended_cycle_for seed =
      (if seed % 5 = 0 then [K2_GLYPH] else if seed % 7 = 0 then [KTWO_GLYPH] else []) ++
      ((if seed % 11 = 0 then [ASSISTANT_GLYPH] else []) ++ extra_glyph_cycle)) ∧
    (∀ j : ℕ, j < (extended_cycle_for seed).length →
      (rotated_cycle_for seed).getD j defaultGlyph =
        (extended_cycle_for seed).getD
          ((((seed * 3) % ((extended_cycle_for seed).length : ℤ)).toNat + j) %
            (extended_cycle_for seed).length) defaultGlyph) ∧
    (∀ base : List Glyph, ∀ target : ℤ, (base.length : ℤ) < target →
      generate_glyph_sequence seed base target =
        base ++ (List.range (target.toNat - base.length)).map
          (fun cycle_idx =>
            (rotated_cycle_for seed).getD (cycle_idx % (rotated_cycle_for seed).length)
              defaultGlyph)) := by
  refine ⟨?_, fun j hj => rotated_cycle_for_getD seed j hj,
    fun base target h => generate_glyph_sequence_extension seed base target h⟩
  simp only [extended_cycle_for]
  split_ifs <;> simp

/-- Witness for C5: the extension equation at a concrete input. -/
theorem claim_C5_witness :
    generate_glyph_sequence 7 [("A", 18)] 3 =
      [("A", 18)] ++ (List.range ((3 : ℤ).toNat - [("A", 18)].length)).map
        (fun cycle_idx =>
          (rotated_cycle_for 7).getD (cycle_idx % (rotated_cycle_for 7).length)
            defaultGlyph) :=
  (claim_C5_extension_structure 7).2.2 [("A", 18)] 3 (by decide)

/-! ## C2 — quality-dial resolver -/

/-- Claim **C2**: the resolver clamps the requested level into
`[0, MAX_NICE_LEVEL]`; feature `i` (1-indexed, declared order) is disabled
iff the clamped level is at least `i`; the disabled set is monotone in the
level; level 0 enables everything and level `MAX_NICE_LEVEL` disables
everything. -/
theorem resolve_flag_getD (L : ℤ) (i : ℕ) (hi : i < 6) :
    (flagVec (resolve_nice_flags L).2).getD i false =
      decide ((i : ℤ) + 1 ≤ max 0 (min L MAX_NICE_LEVEL)) := by
  interval_cases i <;> rfl

theorem claim_C2_quality_resolver (L : ℤ) :
    (0 ≤ (resolve_nice_flags L).1 ∧ (resolve_nice_flags L).1 ≤ MAX_NICE_LEVEL) ∧
    (∀ i : ℕ, i < NICE_FEATURE_STEPS.length →
      ((flagVec (resolve_nice_flags L).2).getD i false = true ↔
        (i : ℤ) + 1 ≤ (resolve_nice_flags L).1)) ∧
    (∀ i : ℕ, i < NICE_FEATURE_STEPS.length →
      (flagVec (resolve_nice_flags L).2).getD i false = true →
      (flagVec (resolve_nice_flags (L + 1)).2).getD i false = true) ∧
    flagVec (resolve_nice_flags 0).2 = [false, false, false, false, false, false] ∧
    flagVec (resolve_nice_flags MAX_NICE_LEVEL).2 = [true, true, true, true, true, true] := by
  have hmax : MAX_NICE_LEVEL = 6 := by decide
  have hsteps : NICE_FEATURE_STEPS.length = 6 := by decide
  have h1 : (resolve_nice_flags L).1 = max 0 (min L MAX_NICE_LEVEL) := rfl
  refine ⟨⟨?_, ?_⟩, fun i hi => ?_, fun i hi => ?_, by decide, by decide⟩
  · rw [h1, hmax]
    omega
  · rw [h1]
    conv_rhs => rw [hmax]
    rw [hmax]
    omega
  · rw [hsteps] at hi
    rw [resolve_flag_getD L i hi, decide_eq_true_iff, h1]
  · rw [hsteps] at hi
    rw [resolve_flag_getD L i hi, resolve_flag_getD (L + 1) i hi,
        decide_eq_true_iff, decide_eq_true_iff, hmax]
    omega

/-- Witness for C2: the 1-indexed disable rule at level 3, feature 2. -/
theorem claim_C2_witness :
    (flagVec (resolve_nice_flags 3).2).getD 2 false = true ↔
      ((2 : ℕ) : ℤ) + 1 ≤ (resolve_nice_flags 3).1 :=
  (claim_C2_quality_resolver 3).2.1 2 (by decide)

/-! ## C10 — the fall timeline is unconditional -/

/-- Claim **C10**: for every quality-flag setting, column and glyph, the emitted
text element carries its fall animation — a translate timeline from the
column's translate keyframe pair, with duration
`column translate_dur × per-glyph scale × VERTICAL_SPEED_FACTOR` and begin
offset `column translate_begin + anchor − micro-phase` — and this timeline
is the same for every flag setting: no quality flag disables or replaces
it. -/
theorem claim_C10_fall_unconditional (nice_flags : NiceFlags) (col_idx : ℕ)
    (col : Column) (glyph_idx : ℕ) (g : Glyph) :
    (build_glyph_elem nice_flags col_idx col glyph_idx g).fall =
      { v_start := col.translate_y0
        v_end := col.translate_y1
        dur := qmul (qmul col.translate_dur
            (qadd (qadd (mkRat 95 100) (qmul (mkRat 8 100) ((glyph_idx % 5 : ℕ) : ℚ)))
              (qmul (mkRat 5 100) (((glyph_idx + col_idx) % patterns.length % 3 : ℕ) : ℚ))))
          VERTICAL_SPEED_FACTOR
        begin_time := qsub (qadd col.translate_begin (column_anchor col_idx))
          (micro_phase col_idx glyph_idx) } := rfl

/-! ## C4 — quality gating of the four per-glyph timelines -/

/-- Claim **C4 (amended)**: each of the four gated timelines is attached iff its
flag is not disabled.  When the fill-opacity pulse is disabled a static
`fill-opacity` attribute carrying the keyframe mean is emitted in its
place; when the per-glyph opacity pulse is disabled a static `opacity`
attribute carrying the per-glyph peak value is emitted in its place.  The
font-size pulse and the micro-jitter are simply omitted when disabled: no
substitute attribute is emitted for them (the static `font-size` and base
transform attributes are present regardless of the flags). -/
theorem claim_C4_timeline_gating (nice_flags : NiceFlags) (col_idx : ℕ)
    (col : Column) (glyph_idx : ℕ) (g : Glyph) :
    (build_glyph_elem nice_flags col_idx col glyph_idx g).fill_anim.isSome =
        !nice_flags.disable_fill_opacity_pulse ∧
    (build_glyph_elem nice_flags col_idx col glyph_idx g).opacity_anim.isSome =
        !nice_flags.disable_per_glyph_opacity ∧
    (build_glyph_elem nice_flags col_idx col glyph_idx g).size_anim.isSome =
        !nice_flags.disable_font_size_animation ∧
    (build_glyph_elem nice_flags col_idx col glyph_idx g).jitter_anim.isSome =
        !nice_flags.disable_micro_jitter ∧
    (build_glyph_elem nice_flags col_idx col glyph_idx g).fill_opacity_attr =
      (if nice_flags.disable_fill_opacity_pulse then
        some (qdiv
          (qsum (patterns.getD ((glyph_idx + col_idx) % patterns.length)
            default_pattern).fill_values)
          ((patterns.getD ((glyph_idx + col_idx) % patterns.length)
            default_pattern).fill_values.length : ℚ))
       else none) ∧
    (build_glyph_elem nice_flags col_idx col glyph_idx g).opacity_attr =
      (if nice_flags.disable_per_glyph_opacity then
        some (min (mkRat 98 100) (max (mkRat 4 10)
          (qmul col.opacity_v1
            (qadd 1 (qmul (mkRat 8 100) (qsub ((glyph_idx % 3 : ℕ) : ℚ) 1))))))
       else none) ∧
    (build_glyph_elem nice_flags col_idx col glyph_idx g).font_size = g.2 ∧
    (build_glyph_elem nice_flags col_idx col glyph_idx g).base_translation =
        col.translate_y0 := by
  obtain ⟨f1, f2, f3, f4, f5, f6⟩ := nice_flags
  cases f1 <;> cases f2 <;> cases f3 <;> cases f4 <;>
    exact ⟨rfl, rfl, rfl, rfl, rfl, rfl, rfl, rfl⟩

/-- Counterexample for C4 as frozen: at quality level 2 the font-size pulse
and the micro-jitter are disabled, yet the emitted element is exactly the
all-enabled element with those two timelines stripped — no static fallback
value is emitted in their place. -/
theorem claim_C4_counterexample :
    (build_glyph_elem (resolve_nice_flags 2).2 0 (base_columns.getD 0 default_column) 0
        ("A", 18)).size_anim = none ∧
    (build_glyph_elem (resolve_nice_flags 2).2 0 (base_columns.getD 0 default_column) 0
        ("A", 18)).jitter_anim = none ∧
    build_glyph_elem (resolve_nice_flags 2).2 0 (base_columns.getD 0 default_column) 0
        ("A", 18) =
      { build_glyph_elem (resolve_nice_flags 0).2 0 (base_columns.getD 0 default_column) 0
          ("A", 18) with size_anim := none, jitter_anim := none } :=
  ⟨rfl, rfl, rfl⟩

/-! ## C7 — the documented default layout -/

/-- Claim **C7**: with `regular_count = 12`, `irregular_count = 12` and
`gps_min = gps_max = 22` the engine produces exactly 24 columns, the
pre-margin span width is `max(500, 23*42) = 966` (so, with the zero edge
margin, the canvas width is 966), and every column's glyph list has length
exactly 22. -/
theorem claim_C7_default_layout :
    (build_columns zero_draws 22 22 12 12).1.length = 24 ∧
    span_width 12 12 = max 500 (23 * 42) ∧
    (build_columns zero_draws 22 22 12 12).2 = 966 ∧
    ∀ c ∈ (build_columns zero_draws 22 22 12 12).1, c.glyphs.length = 22 := by
  refine ⟨by decide, ?_, by decide, by decide⟩
  rw [show ((23 : ℚ) * 42) = 966 by norm_num]
  decide

/-! ## C9 — fixed-seed determinism of the sampled glyph counts -/

theorem pick_glyph_target_congr (D1 D2 : DrawFamily) (mi ma : ℤ)
    (h : ∀ k, D1 RNG_SEED k = D2 RNG_SEED k) (k : ℕ) :
    pick_glyph_target D1 mi ma k = pick_glyph_target D2 mi ma k := by
  simp only [pick_glyph_target, randint_model, h k]

theorem build_regular_congr (D1 D2 : DrawFamily) (mi ma r : ℤ)
    (h : ∀ k, D1 RNG_SEED k = D2 RNG_SEED k) (span : ℚ) :
    build_regular D1 mi ma r span = build_regular D2 mi ma r span := by
  unfold build_regular
  apply List.foldl_ext
  intro acc idx _
  rw [pick_glyph_target_congr D1 D2 mi ma h]

theorem build_irregular_congr (D1 D2 : DrawFamily) (mi ma r : ℤ)
    (h : ∀ k, D1 RNG_SEED k = D2 RNG_SEED k) (span : ℚ) (idxs : List ℕ) (k0 : ℕ) :
    build_irregular D1 mi ma r span idxs k0 = build_irregular D2 mi ma r span idxs k0 := by
  unfold build_irregular
  apply List.foldl_ext
  intro acc p _
  rw [pick_glyph_target_congr D1 D2 mi ma h]

/-- Claim **C9**: the pseudorandom generator is constructed fresh with the fixed
constant seed `0xC0FFEE` for every run, so the whole column synthesis
depends only on that one fixed-seed draw stream: any two draw families that
agree on the `RNG_SEED` stream (in particular, two runs of the very same
generator) produce identical columns and canvas width — identical
per-column sampled glyph counts included. -/
theorem claim_C9_fixed_seed_determinism (D1 D2 : DrawFamily) (mi ma r i : ℤ)
    (h : ∀ k, D1 RNG_SEED k = D2 RNG_SEED k) :
    build_columns D1 mi ma r i = build_columns D2 mi ma r i := by
  simp only [build_columns, build_columns_raw,
    build_regular_congr D1 D2 mi ma r h, build_irregular_congr D1 D2 mi ma r h]

/-- Witness for C9 at a concrete input (with `gps_min ≠ gps_max`, where
draws are actually consumed). -/
theorem claim_C9_witness :
    build_columns zero_draws 22 25 3 3 = build_columns zero_draws 22 25 3 3 :=
  claim_C9_fixed_seed_determinism zero_draws zero_draws 22 25 3 3 (fun _ => rfl)

/-! ## C6 — single regular column and the span midpoint -/

/-- Counterexample for C6 as frozen: with `regular_count = 1` and
`irregular_count = 1`, renormalization maps the minimum x (the regular
column, placed at the midpoint before renormalization) to 0, not to the
span midpoint `span_width/2 = 250`. -/
theorem claim_C6_counterexample :
    ¬ (((build_columns zero_draws 22 22 1 1).1.map (fun c => c.x)).getD 0 0 =
        span_width 1 1 / 2) := by
  intro hcontra
  rw [show ((build_columns zero_draws 22 22 1 1).1.map (fun c => c.x)).getD 0 0 = 0 from
        by decide,
      show span_width 1 1 = 500 from by decide] at hcontra
  norm_num at hcontra

/-- Claim **C6 (amended)**: with `regular_count = 1` and `irregular_count = 0`
(the claim as frozen also quantified over irregular columns, but any
irregular column shifts the renormalization anchor — see the
counterexample), the single regular column's final x-position is exactly
the span midpoint, for every glyph-bound setting and draw family. -/
theorem claim_C6_amended_midpoint (D : DrawFamily) (mi ma : ℤ) :
    (build_columns D mi ma 1 0).1.map (fun c => c.x) =
      [span_width 1 0 / 2 + EDGE_MARGIN] := by
  have hsel : select_irregular_indices (max 0 (0 : ℤ)) = [] := by decide
  have hrange : List.range (max 0 (1 : ℤ)).toNat = [0] := by decide
  simp only [build_columns, build_columns_raw, build_regular, build_irregular, hsel, hrange,
    List.foldl_cons, List.foldl_nil, List.enum_nil, List.append_nil, normalize_pass,
    List.map_cons, List.map_nil, listMinQ, listMaxQ, if_pos, qadd_eq, qdiv_eq]
  norm_num

/-! ## C8 — defensive clamping in the synthesis entry point -/

theorem resolve_nice_flags_congr (a b : ℤ)
    (h : max 0 (min a MAX_NICE_LEVEL) = max 0 (min b MAX_NICE_LEVEL)) :
    resolve_nice_flags a = resolve_nice_flags b := by
  simp only [resolve_nice_flags, h]

/-- Claim **C8**: `build_svg` clamps instead of rejecting: the resolved quality
level lands in `[0, MAX_NICE_LEVEL]`; the columns are always built from
`gps_min` floored at 1, `gps_max` raised to the (floored) `gps_min`, and
column counts floored at 0 — so every out-of-range input yields the same
result as the nearest valid boundary value (negative counts as 0,
`gps_max < gps_min` as `gps_max = gps_min`, out-of-range levels as the
nearest valid level), and the synthesis always returns a result. -/
theorem claim_C8_defensive_clamping (D : DrawFamily) (lightning : Bool)
    (nice gmin gmax rc ic : ℤ) (withMeta : Bool) :
    (0 ≤ (build_svg D lightning nice gmin gmax (some rc) (some ic) withMeta).nice_level ∧
     (build_svg D lightning nice gmin gmax (some rc) (some ic) withMeta).nice_level ≤
       MAX_NICE_LEVEL) ∧
    ((build_svg D lightning nice gmin gmax (some rc) (some ic) withMeta).columns =
       (build_columns D (max 1 gmin) (max (max 1 gmin) gmax) (max 0 rc) (max 0 ic)).1 ∧
     (build_svg D lightning nice gmin gmax (some rc) (some ic) withMeta).canvas_width =
       (build_columns D (max 1 gmin) (max (max 1 gmin) gmax) (max 0 rc) (max 0 ic)).2) ∧
    (1 ≤ max 1 gmin ∧ max 1 gmin ≤ max (max 1 gmin) gmax ∧
     0 ≤ max 0 rc ∧ 0 ≤ max 0 ic) ∧
    (rc ≤ 0 →
      build_svg D lightning nice gmin gmax (some rc) (some ic) withMeta =
      build_svg D lightning nice gmin gmax (some 0) (some ic) withMeta) ∧
    (ic ≤ 0 →
      build_svg D lightning nice gmin gmax (some rc) (some ic) withMeta =
      build_svg D lightning nice gmin gmax (some rc) (some 0) withMeta) ∧
    (gmax ≤ gmin →
      build_svg D lightning nice gmin gmax (some rc) (some ic) withMeta =
      build_svg D lightning nice gmin gmin (some rc) (some ic) withMeta) ∧
    (nice ≤ 0 →
      build_svg D lightning nice gmin gmax (some rc) (some ic) withMeta =
      build_svg D lightning 0 gmin gmax (some rc) (some ic) withMeta) ∧
    (MAX_NICE_LEVEL ≤ nice →
      build_svg D lightning nice gmin gmax (some rc) (some ic) withMeta =
      build_svg D lightning MAX_NICE_LEVEL gmin gmax (some rc) (some ic) withMeta) := by
  have hmax : MAX_NICE_LEVEL = 6 := by decide
  have hlvl : (build_svg D lightning nice gmin gmax (some rc) (some ic) withMeta).nice_level =
      max 0 (min nice MAX_NICE_LEVEL) := rfl
  refine ⟨⟨?_, ?_⟩, ⟨rfl, rfl⟩, ⟨?_, ?_, ?_, ?_⟩, fun h => ?_, fun h => ?_, fun h => ?_,
    fun h => ?_, fun h => ?_⟩
  · rw [hlvl, hmax]
    omega
  · rw [hlvl]
    conv_rhs => rw [hmax]
    rw [hmax]
    omega
  · omega
  · omega
  · omega
  · omega
  · have h0 : max 0 rc = 0 := by omega
    simp only [build_svg, Option.getD_some, h0, max_self]
  · have h0 : max 0 ic = 0 := by omega
    simp only [build_svg, Option.getD_some, h0, max_self]
  · have h0 : max (max 1 gmin) gmax = max (max 1 gmin) gmin := by omega
    simp only [build_svg, Option.getD_some, h0]
  · have h0 : resolve_nice_flags nice = resolve_nice_flags 0 :=
      resolve_nice_flags_congr nice 0 (by rw [hmax]; omega)
    simp only [build_svg, h0]
  · have h0 : resolve_nice_flags nice = resolve_nice_flags MAX_NICE_LEVEL :=
      resolve_nice_flags_congr nice MAX_NICE_LEVEL (by rw [hmax]; omega)
    simp only [build_svg, h0]

/-- Witness for C8: a negative regular-column count degrades to 0. -/
theorem claim_C8_witness :
    build_svg zero_draws true 0 22 22 (some (-5)) (some 12) true =
    build_svg zero_draws true 0 22 22 (some 0) (some 12) true :=
  ((claim_C8_defensive_clamping zero_draws true 0 22 22 (-5) 12 true).2.2.2.1) (by decide)

/-! ## C3 — the renormalization pass -/

theorem foldl_min_mem (l : List ℚ) (a : ℚ) : l.foldl min a ∈ a :: l := by
  induction l generalizing a with
  | nil => simp
  | cons x xs ih =>
    rw [List.foldl_cons]
    rcases List.mem_cons.mp (ih (min a x)) with h1 | h1
    · rcases min_choice a x with hc | hc <;> rw [hc] at h1 ⊢ <;> simp [h1]
    · simp [List.mem_cons_of_mem, h1]

theorem foldl_min_le (l : List ℚ) (a : ℚ) : ∀ x ∈ a :: l, l.foldl min a ≤ x := by
  induction l generalizing a with
  | nil =>
    intro x hx
    rw [List.mem_singleton] at hx
    subst hx
    exact le_refl x
  | cons y ys ih =>
    intro x hx
    rw [List.foldl_cons]
    rcases List.mem_cons.mp hx with rfl | hx1
    · exact le_trans (ih (min x y) (min x y) (List.mem_cons_self _ _)) (min_le_left x y)
    rcases List.mem_cons.mp hx1 with rfl | hx2
    · exact le_trans (ih (min a x) (min a x) (List.mem_cons_self _ _)) (min_le_right a x)
    · exact ih (min a y) x (List.mem_cons_of_mem _ hx2)

theorem foldl_max_mem (l : List ℚ) (a : ℚ) : l.foldl max a ∈ a :: l := by
  induction l generalizing a with
  | nil => simp
  | cons x xs ih =>
    rw [List.foldl_cons]
    rcases List.mem_cons.mp (ih (max a x)) with h1 | h1
    · rcases max_choice a x with hc | hc <;> rw [hc] at h1 ⊢ <;> simp [h1]
    · simp [List.mem_cons_of_mem, h1]

theorem foldl_max_ge (l : List ℚ) (a : ℚ) : ∀ x ∈ a :: l, x ≤ l.foldl max a := by
  induction l generalizing a with
  | nil =>
    intro x hx
    rw [List.mem_singleton] at hx
    subst hx
    exact le_refl x
  | cons y ys ih =>
    intro x hx
    rw [List.foldl_cons]
    rcases List.mem_cons.mp hx with rfl | hx1
    · exact le_trans (le_max_left x y) (ih (max x y) (max x y) (List.mem_cons_self _ _))
    rcases List.mem_cons.mp hx1 with rfl | hx2
    · exact le_trans (le_max_right a x) (ih (max a x) (max a x) (List.mem_cons_self _ _))
    · exact ih (max a y) x (List.mem_cons_of_mem _ hx2)

theorem listMinQ_mem (xs : List ℚ) (h : xs ≠ []) : listMinQ xs ∈ xs := by
  match xs with
  | [] => exact absurd rfl h
  | x :: rest => exact foldl_min_mem rest x

theorem listMinQ_le (xs : List ℚ) (x : ℚ) (hx : x ∈ xs) : listMinQ xs ≤ x := by
  match xs with
  | [] => exact absurd hx (List.not_mem_nil x)
  | a :: rest => exact foldl_min_le rest a x hx

theorem listMaxQ_mem (xs : List ℚ) (h : xs ≠ []) : listMaxQ xs ∈ xs := by
  match xs with
  | [] => exact absurd rfl h
  | x :: rest => exact foldl_max_mem rest x

theorem listMaxQ_ge (xs : List ℚ) (x : ℚ) (hx : x ∈ xs) : x ≤ listMaxQ xs := by
  match xs with
  | [] => exact absurd hx (List.not_mem_nil x)
  | a :: rest => exact foldl_max_ge rest a x hx

theorem normalize_pass_nil_width (span : ℚ) :
    (normalize_pass span []).2 = BASE_CANVAS_WIDTH := rfl

theorem normalize_pass_cons_width (span : ℚ) (c0 : Column) (rest : List Column) :
    (normalize_pass span (c0 :: rest)).2 = span + 2 * EDGE_MARGIN := by
  simp only [normalize_pass, qadd_eq, qmul_eq]

/-- Closed form of the renormalized x-positions: each raw x is sent to the
degenerate midpoint when all x agree, else affinely with the observed
minimum at 0 and maximum at `span`, then shifted by the edge margin. -/
theorem normalize_pass_xs (span : ℚ) (cols : List Column) (hne : cols ≠ []) :
    (normalize_pass span cols).1.map (fun c => c.x) =
      (cols.map (fun c => c.x)).map (fun x =>
        (if listMaxQ (cols.map (fun c => c.x)) = listMinQ (cols.map (fun c => c.x))
         then span / 2
         else (x - listMinQ (cols.map (fun c => c.x))) *
           (span / (listMaxQ (cols.map (fun c => c.x)) - listMinQ (cols.map (fun c => c.x)))))
        + EDGE_MARGIN) := by
  match cols with
  | [] => exact absurd rfl hne
  | c0 :: rest =>
    simp only [normalize_pass, List.map_map]
    apply List.map_congr_left
    intro c _
    simp only [Function.comp]
    split_ifs with hc
    · rw [qadd_eq, qdiv_eq]
    · rw [qadd_eq, qmul_eq, qsub_eq, qdiv_eq, qsub_eq]

/-- Claim **C3**: whenever at least one column is produced, the canvas width is
`span_width + 2 * EDGE_MARGIN` and every raw x is rescaled affinely with
the observed minimum mapped exactly to 0 and the observed maximum to
`span_width` (both extrema are attained by actual columns), every position
then being shifted by the edge margin; when all raw x agree, every column
is mapped to `span_width / 2` (plus margin); when zero columns are
produced, the canvas width is the fixed `BASE_CANVAS_WIDTH`. -/
theorem claim_C3_renormalization (D : DrawFamily) (mi ma r i : ℤ) :
    (build_columns_raw D mi ma r i = [] →
      (build_columns D mi ma r i).2 = BASE_CANVAS_WIDTH) ∧
    (build_columns_raw D mi ma r i ≠ [] →
      (build_columns D mi ma r i).2 = span_width r i + 2 * EDGE_MARGIN ∧
      listMinQ (raw_xs D mi ma r i) ∈ raw_xs D mi ma r i ∧
      (∀ x ∈ raw_xs D mi ma r i, listMinQ (raw_xs D mi ma r i) ≤ x) ∧
      listMaxQ (raw_xs D mi ma r i) ∈ raw_xs D mi ma r i ∧
      (∀ x ∈ raw_xs D mi ma r i, x ≤ listMaxQ (raw_xs D mi ma r i)) ∧
      (listMaxQ (raw_xs D mi ma r i) = listMinQ (raw_xs D mi ma r i) →
        final_xs D mi ma r i =
          (raw_xs D mi ma r i).map (fun _ => span_width r i / 2 + EDGE_MARGIN)) ∧
      (listMaxQ (raw_xs D mi ma r i) ≠ listMinQ (raw_xs D mi ma r i) →
        final_xs D mi ma r i =
          (raw_xs D mi ma r i).map (fun x =>
            (x - listMinQ (raw_xs D mi ma r i)) *
              (span_width r i /
                (listMaxQ (raw_xs D mi ma r i) - listMinQ (raw_xs D mi ma r i))) +
            EDGE_MARGIN) ∧
        (listMinQ (raw_xs D mi ma r i) - listMinQ (raw_xs D mi ma r i)) *
            (span_width r i /
              (listMaxQ (raw_xs D mi ma r i) - listMinQ (raw_xs D mi ma r i))) +
            EDGE_MARGIN = EDGE_MARGIN ∧
        (listMaxQ (raw_xs D mi ma r i) - listMinQ (raw_xs D mi ma r i)) *
            (span_width r i /
              (listMaxQ (raw_xs D mi ma r i) - listMinQ (raw_xs D mi ma r i))) +
            EDGE_MARGIN = span_width r i + EDGE_MARGIN)) := by
  constructor
  · intro h0
    unfold build_columns
    rw [h0]
    rfl
  · intro hne
    have hxs : raw_xs D mi ma r i =
        (build_columns_raw D mi ma r i).map (fun c => c.x) := rfl
    have hxs_ne : raw_xs D mi ma r i ≠ [] := by
      rw [hxs]
      simpa using hne
    have hfin : final_xs D mi ma r i =
        (normalize_pass (span_width r i) (build_columns_raw D mi ma r i)).1.map
          (fun c => c.x) := rfl
    have hmap := normalize_pass_xs (span_width r i) (build_columns_raw D mi ma r i) hne
    rw [← hxs] at hmap
    refine ⟨?_, listMinQ_mem _ hxs_ne, fun x hx => listMinQ_le _ x hx,
      listMaxQ_mem _ hxs_ne, fun x hx => listMaxQ_ge _ x hx, fun heq => ?_, fun hneq => ?_⟩
    · show (normalize_pass (span_width r i) (build_columns_raw D mi ma r i)).2 =
        span_width r i + 2 * EDGE_MARGIN
      match hcols : build_columns_raw D mi ma r i with
      | [] => exact absurd hcols hne
      | c0 :: rest => exact normalize_pass_cons_width (span_width r i) c0 rest
    · rw [hfin, hmap]
      apply List.map_congr_left
      intro x _
      rw [if_pos heq]
    · have hsub : listMaxQ (raw_xs D mi ma r i) - listMinQ (raw_xs D mi ma r i) ≠ 0 :=
        sub_ne_zero.mpr hneq
      refine ⟨?_, by ring_nf, ?_⟩
      · rw [hfin, hmap]
        apply List.map_congr_left
        intro x _
        rw [if_neg hneq]
      · rw [mul_comm, div_mul_cancel₀ _ hsub]

/-- Witness for C3: the nonempty branch at a concrete input with two
distinct x-positions. -/
theorem claim_C3_witness :
    (build_columns zero_draws 22 22 2 0).2 = span_width 2 0 + 2 * EDGE_MARGIN :=
  ((claim_C3_renormalization zero_draws 22 22 2 0).2 (by decide)).1

end MatrixSvg
